import Mathlib

set_option maxRecDepth 4000

/-!
Shallow embedding of `src/source/fltkui/jgmanager.cpp` (class `JGManager`),
the game-core lifecycle manager of the Nestopia FLTK frontend.

The external JG core API, the hasher, the logger and the `std::filesystem`
path helpers are collaborators outside this translation unit; their
observable behaviour is modelled by a `CoreEnv` record of response
functions, and every call the manager makes across the boundary is
recorded in an event trace returned alongside the updated state.
Machine `int` is modelled by `Int`, C++ `double` by `ℚ` (with the C++
double-to-int conversion modelled as truncation toward zero), and C/C++
strings by `String`.
-/

/-- One entry of the core-exported settings array (`jg_setting_t`).  The
descriptor type lives in the external JG API header; the manager only ever
reads the `name` field (in `JGManager::get_setting`), so the rest of the
descriptor is carried opaquely as an integer payload. -/
structure jg_setting_t where
  name : String
  val : Int
deriving DecidableEq

/-- A call the manager makes into the external core API. -/
inductive CoreCall where
  | jgDeinit
  | jgExecFrame
  | jgReset (hard : Int)
  | jgMediaSelect
  | jgMediaInsert
  | jgSetGameinfo
  | jgGameLoad
  | jgGameUnload
  | jgStateLoad (path : String)
  | jgStateSave (path : String)
deriving DecidableEq, BEq

/-- An observable effect of a manager command: either a core-API call, or a
screen-severity log message sent to `LogDriver::jg_log(JG_LOG_SCR, msg)`. -/
inductive Event where
  | core (c : CoreCall)
  | logScr (msg : String)
deriving DecidableEq, BEq

/-- Screen-severity log events, as opposed to core-API calls. -/
def Event.isScrLog : Event → Bool
  | .core _ => false
  | .logScr _ => true

/-- Responses of the external collaborators: the return values of the mock core
(`jg_game_load`, `jg_state_load`, `jg_state_save`) and the pure external
helpers the manager calls while building the game identity
(`Hasher::crc`, `Hasher::md5`, `std::filesystem::path::stem`,
`std::filesystem::path::filename`). -/
structure CoreEnv where
  gameLoadResult : Int
  stateLoadResult : String → Int
  stateSaveResult : String → Int
  crc : List Nat → Nat
  md5 : List Nat → String
  stemOf : String → String
  filenameOf : String → String

/-- The process environment read by `JGManager::set_paths`:
`getenv("XDG_DATA_HOME")` (`none` models a null pointer, `some ""` models
the variable set to the empty string), `getenv("HOME")`, `getenv("PWD")`,
the compile-time constant `NST_DATADIR`, and whether the file
`NstDatabase.xml` exists in the current working directory. -/
structure OsEnv where
  xdg_data_home : Option String
  home : String
  pwd : String
  nst_datadir : String
  nstDatabaseInPwd : Bool

/-- The manager state: the `loaded` flag, the owned path strings, the owned
game-identity strings backing the `jg_gameinfo_t` record handed to the
core, and the recorded settings descriptors. -/
structure JGManager where
  loaded : Bool
  basepath : String
  savepath : String
  corepath : String
  gamepath : String
  gamename : String
  gamefname : String
  gamemd5 : String
  gamecrc : Nat
  settings : List jg_setting_t
deriving DecidableEq

/-- `JGManager::is_loaded`: returns the `loaded` flag. -/
def JGManager.is_loaded (m : JGManager) : Bool :=
  m.loaded

/-- `JGManager::unload_game`: if a game is loaded, call `jg_game_unload`
and clear `loaded`; otherwise do nothing. -/
def JGManager.unload_game (m : JGManager) : JGManager × List Event :=
  if m.loaded then
    ({ m with loaded := false }, [Event.core CoreCall.jgGameUnload])
  else
    (m, [])

/-- `JGManager::load_game`: unload any current game, populate the game
identity (crc, md5, path, stem, filename), register the game info with the
core (`jg_set_gameinfo`), then call `jg_game_load`; on failure (result 0)
run the unload sweep and return, on success set `loaded`. -/
def JGManager.load_game (env : CoreEnv) (m : JGManager)
    (filename : String) (game : List Nat) : JGManager × List Event :=
  let p1 := m.unload_game
  let m1 : JGManager :=
    { p1.1 with
      gamecrc := env.crc game
      gamemd5 := env.md5 game
      gamepath := filename
      gamename := env.stemOf filename
      gamefname := env.filenameOf filename }
  let t1 := p1.2 ++ [Event.core CoreCall.jgSetGameinfo, Event.core CoreCall.jgGameLoad]
  if env.gameLoadResult = 0 then
    let p2 := m1.unload_game
    (p2.1, t1 ++ p2.2)
  else
    ({ m1 with loaded := true }, t1)

/-- `JGManager::set_paths`: resolve the base path from `XDG_DATA_HOME`
(used whenever `getenv` returns non-null, i.e. whenever the variable is
set, empty or not) or else from `HOME`; derive the save path; resolve the
core-asset path from the presence of `NstDatabase.xml` in the working
directory.  The `std::filesystem::create_directories` calls and the
`jg_set_paths` registration are I/O outside the state model. -/
def JGManager.set_paths (os : OsEnv) (m : JGManager) : JGManager :=
  let basepath :=
    match os.xdg_data_home with
    | some env_xdg_data => env_xdg_data ++ "/nestopia"
    | none => os.home ++ "/.local/share/nestopia"
  let savepath := basepath ++ "/save"
  let corepath := if os.nstDatabaseInPwd then os.pwd else os.nst_datadir
  { m with basepath := basepath, savepath := savepath, corepath := corepath }

/-- The base-path rule exactly as the specification words it (for the
refinement check of claim C3): set **and non-empty** `XDG_DATA_HOME` wins,
otherwise (unset **or empty**) fall back to `HOME`. -/
def specBasePath (xdg_data_home : Option String) (home : String) : String :=
  match xdg_data_home with
  | some v => if v = "" then home ++ "/.local/share/nestopia" else v ++ "/nestopia"
  | none => home ++ "/.local/share/nestopia"

/-- `JGManager::exec_frame`: calls `jg_exec_frame` unconditionally (the
source has no `loaded` guard here). -/
def JGManager.exec_frame (m : JGManager) : JGManager × List Event :=
  (m, [Event.core CoreCall.jgExecFrame])

/-- `JGManager::reset`: calls `jg_reset(hard)` only when a game is loaded. -/
def JGManager.reset (m : JGManager) (hard : Int) : JGManager × List Event :=
  if m.loaded then (m, [Event.core (CoreCall.jgReset hard)]) else (m, [])

/-- `JGManager::media_select`: returns immediately when not loaded,
otherwise calls `jg_media_select`. -/
def JGManager.media_select (m : JGManager) : JGManager × List Event :=
  if !m.loaded then (m, []) else (m, [Event.core CoreCall.jgMediaSelect])

/-- `JGManager::media_insert`: returns immediately when not loaded,
otherwise calls `jg_media_insert`. -/
def JGManager.media_insert (m : JGManager) : JGManager × List Event :=
  if !m.loaded then (m, []) else (m, [Event.core CoreCall.jgMediaInsert])

/-- `JGManager::state_load`: returns 2 when not loaded, otherwise forwards
to `jg_state_load(filename)` and returns its status. -/
def JGManager.state_load (env : CoreEnv) (m : JGManager) (filename : String) :
    Int × List Event :=
  if !m.loaded then (2, [])
  else (env.stateLoadResult filename, [Event.core (CoreCall.jgStateLoad filename)])

/-- `JGManager::state_save`: returns 2 when not loaded, otherwise forwards
to `jg_state_save(filename)` and returns its status. -/
def JGManager.state_save (env : CoreEnv) (m : JGManager) (filename : String) :
    Int × List Event :=
  if !m.loaded then (2, [])
  else (env.stateSaveResult filename, [Event.core (CoreCall.jgStateSave filename)])

/-- Decimal rendering of a C++ `int` as `std::to_string` produces it: the
plain decimal digits, preceded by a minus sign for negative values, with
no zero padding. -/
def to_string_int (i : Int) : String :=
  if i < 0 then "-" ++ Nat.repr i.natAbs else Nat.repr i.natAbs

/-- `JGManager::state_qload`: return 2 when not loaded; otherwise build the
quick-slot path, delegate to `state_load`, and emit one screen log message
keyed on the result (`switch` over 0 / 1 / default). -/
def JGManager.state_qload (env : CoreEnv) (m : JGManager) (slot : Int) :
    Int × List Event :=
  if !m.loaded then (2, [])
  else
    let slotpath := m.basepath ++ "/state/" ++ m.gamename ++ "_" ++
      to_string_int slot ++ ".nst"
    let r := m.state_load env slotpath
    let msg :=
      if r.1 = 0 then "State Load Failed"
      else if r.1 = 1 then "State Loaded"
      else "State Load Unknown"
    (r.1, r.2 ++ [Event.logScr msg])

/-- `JGManager::state_qsave`: return 2 when not loaded; otherwise build the
quick-slot path, delegate to `state_save`, and emit one screen log message
keyed on the result (`switch` over 0 / 1 / default). -/
def JGManager.state_qsave (env : CoreEnv) (m : JGManager) (slot : Int) :
    Int × List Event :=
  if !m.loaded then (2, [])
  else
    let slotpath := m.basepath ++ "/state/" ++ m.gamename ++ "_" ++
      to_string_int slot ++ ".nst"
    let r := m.state_save env slotpath
    let msg :=
      if r.1 = 0 then "State Save Failed"
      else if r.1 = 1 then "State Saved"
      else "State Save Unknown"
    (r.1, r.2 ++ [Event.logScr msg])

/-- `JGManager::~JGManager`: the destructor calls `jg_deinit` first and
`unload_game` after it. -/
def JGManager.destructor (m : JGManager) : JGManager × List Event :=
  let p := m.unload_game
  (p.1, Event.core CoreCall.jgDeinit :: p.2)

/-- The linear scan of `JGManager::get_setting` over the recorded settings
pointers: first descriptor whose `name` equals the query, else null. -/
def findSetting : List jg_setting_t → String → Option jg_setting_t
  | [], _ => none
  | s :: rest, n => if s.name = n then some s else findSetting rest n

/-- `JGManager::get_setting`: linear scan over `settings`, returning the
first descriptor whose `name` equals the query, or `nullptr` (here `none`)
when there is none. -/
def JGManager.get_setting (m : JGManager) (name : String) : Option jg_setting_t :=
  findSetting m.settings name

/-- C++ double-to-int conversion truncates toward zero
([conv.fpint]): floor for non-negative values, ceiling for negative ones. -/
def truncToInt (q : ℚ) : Int :=
  if 0 ≤ q then ⌊q⌋ else ⌈q⌉

/-- The process-scope state of the anonymous namespace in the source file:
`int frametime{60}`. -/
structure FrameState where
  frametime : Int
deriving DecidableEq

/-- The frametime callback `jg_frametime(double interval)`:
`frametime = interval + 0.5`, an int assignment that truncates toward
zero. -/
def jg_frametime (s : FrameState) (interval : ℚ) : FrameState :=
  { s with frametime := truncToInt (interval + 1/2) }

/-- `JGManager::get_frametime`: returns the stored frametime. -/
def get_frametime (s : FrameState) : Int :=
  s.frametime

/-- A concrete unloaded manager, used as test input for witnesses and
counterexamples. -/
def m0 : JGManager :=
  { loaded := false
    basepath := "/home/u/.local/share/nestopia"
    savepath := "/home/u/.local/share/nestopia/save"
    corepath := "/usr/share/nestopia"
    gamepath := ""
    gamename := ""
    gamefname := ""
    gamemd5 := ""
    gamecrc := 0
    settings := [] }

/-- A concrete loaded manager with the base path and game name of scenario 4
of the specification. -/
def m1 : JGManager :=
  { m0 with loaded := true, basepath := "/d/nestopia", gamename := "Alpha" }

/-- A concrete manager carrying the settings list of scenario 6 of the
specification. -/
def m2 : JGManager :=
  { m0 with settings := [⟨"a", 0⟩, ⟨"b", 1⟩] }

/-- A mock core on which every operation succeeds (status 1). -/
def envOK : CoreEnv :=
  { gameLoadResult := 1
    stateLoadResult := fun _ => 1
    stateSaveResult := fun _ => 1
    crc := fun bytes => bytes.length
    md5 := fun _ => ""
    stemOf := fun s => s
    filenameOf := fun s => s }

/-- A mock core whose `jg_game_load` fails (status 0). -/
def envFail : CoreEnv :=
  { envOK with gameLoadResult := 0 }

/-- A process environment with `XDG_DATA_HOME` set to the empty string. -/
def osEmptyXdg : OsEnv :=
  { xdg_data_home := some ""
    home := "/home/u"
    pwd := "/src"
    nst_datadir := "/usr/share/nestopia"
    nstDatabaseInPwd := false }

/-- The initial frametime state (`int frametime{60}`). -/
def fs0 : FrameState :=
  { frametime := 60 }

/-- A process environment with `XDG_DATA_HOME` set to a non-empty string. -/
def osXdg : OsEnv :=
  { osEmptyXdg with xdg_data_home := some "/d" }

/-- Helper: the event trace of `load_game` is an unload sweep (one
`jg_game_unload` exactly when a game was loaded at entry) followed by
`jg_set_gameinfo` and `jg_game_load`; the resulting `loaded` flag is true
exactly when the core reported a successful load. -/
theorem load_game_trace (env : CoreEnv) (m : JGManager) (fn : String) (game : List Nat) :
    (m.load_game env fn game).2 =
      (if m.loaded then [Event.core CoreCall.jgGameUnload] else []) ++
        [Event.core CoreCall.jgSetGameinfo, Event.core CoreCall.jgGameLoad] ∧
    (m.load_game env fn game).1.loaded = decide (env.gameLoadResult ≠ 0) := by
  cases hl : m.loaded <;> by_cases hg : env.gameLoadResult = 0 <;>
    simp [JGManager.load_game, JGManager.unload_game, hl, hg]

/-- Claim C1, amended: when no game is loaded, `reset`, `media_select` and
`media_insert` are silent no-ops (state unchanged, no core-API call), but
`exec_frame` still calls `jg_exec_frame` unconditionally (the source has
no `loaded` guard in `JGManager::exec_frame`), leaving the state
unchanged. -/
theorem claim_C1 (m : JGManager) (hard : Int) (h : m.is_loaded = false) :
    m.reset hard = (m, []) ∧ m.media_select = (m, []) ∧
    m.media_insert = (m, []) ∧
    m.exec_frame = (m, [Event.core CoreCall.jgExecFrame]) := by
  have hl : m.loaded = false := h
  refine ⟨?_, ?_, ?_, ?_⟩ <;>
    simp [JGManager.reset, JGManager.media_select, JGManager.media_insert,
      JGManager.exec_frame, hl]

/-- Claim C1, witness: the amended statement evaluated on the concrete
unloaded manager `m0`. -/
theorem claim_C1_witness :
    m0.reset 1 = (m0, []) ∧ m0.media_select = (m0, []) ∧
    m0.media_insert = (m0, []) ∧
    m0.exec_frame = (m0, [Event.core CoreCall.jgExecFrame]) :=
  claim_C1 m0 1 rfl

/-- Claim C1, counterexample: on the unloaded manager `m0`, `exec_frame` is
not a silent no-op; it emits the core-API call `jg_exec_frame`, refuting
the claim as stated. -/
theorem claim_C1_counterexample :
    m0.is_loaded = false ∧ m0.exec_frame ≠ (m0, []) ∧
    m0.exec_frame = (m0, [Event.core CoreCall.jgExecFrame]) := by
  decide

/-- Claim C2, amended: after `load_game` returns, the core received exactly
one `jg_set_gameinfo` followed by exactly one `jg_game_load`; `is_loaded`
is true iff the core reported success; and `jg_game_unload` was called
exactly once when a game was loaded at entry and never otherwise (in
particular, a failed load from the unloaded state produces no unload
call). -/
theorem claim_C2 (env : CoreEnv) (m : JGManager) (fn : String) (game : List Nat) :
    ((m.load_game env fn game).2).count (Event.core CoreCall.jgSetGameinfo) = 1 ∧
    ((m.load_game env fn game).2).count (Event.core CoreCall.jgGameLoad) = 1 ∧
    ((m.load_game env fn game).2).indexOf (Event.core CoreCall.jgSetGameinfo) <
      ((m.load_game env fn game).2).indexOf (Event.core CoreCall.jgGameLoad) ∧
    ((m.load_game env fn game).1.is_loaded = true ↔ env.gameLoadResult ≠ 0) ∧
    ((m.load_game env fn game).2).count (Event.core CoreCall.jgGameUnload) =
      (if m.loaded then 1 else 0) := by
  obtain ⟨ht, hloaded⟩ := load_game_trace env m fn game
  refine ⟨?_, ?_, ?_, ?_, ?_⟩
  · rw [ht]; cases hl : m.loaded <;> decide
  · rw [ht]; cases hl : m.loaded <;> decide
  · rw [ht]; cases hl : m.loaded <;> decide
  · rw [JGManager.is_loaded, hloaded]; simp
  · rw [ht]; cases hl : m.loaded <;> decide

/-- Claim C2, counterexample: starting unloaded with a core whose
`jg_game_load` fails, `load_game` ends with `is_loaded` false yet the core
never observed a `jg_game_unload` call, refuting the claimed disjunction
(the unload sweep after a failed load is a no-op because `loaded` is still
false). -/
theorem claim_C2_counterexample :
    ¬ (((m0.load_game envFail "/tmp/a.nes" [222, 173]).1.is_loaded = true ∧
        ((m0.load_game envFail "/tmp/a.nes" [222, 173]).2).count
          (Event.core CoreCall.jgSetGameinfo) = 1 ∧
        ((m0.load_game envFail "/tmp/a.nes" [222, 173]).2).count
          (Event.core CoreCall.jgGameLoad) = 1) ∨
      ((m0.load_game envFail "/tmp/a.nes" [222, 173]).1.is_loaded = false ∧
        1 ≤ ((m0.load_game envFail "/tmp/a.nes" [222, 173]).2).count
          (Event.core CoreCall.jgGameUnload))) := by
  decide

/-- Claim C3, amended: whenever `XDG_DATA_HOME` is not set to the empty
string, the resolved base path agrees with the specification rule
(`$XDG_DATA_HOME/nestopia` when set, `$HOME/.local/share/nestopia` when
unset); the code diverges from the specification only in the
set-but-empty case, where it yields `/nestopia` instead of falling back
to `HOME`. -/
theorem claim_C3 (os : OsEnv) (m : JGManager) (h : os.xdg_data_home ≠ some "") :
    (m.set_paths os).basepath = specBasePath os.xdg_data_home os.home := by
  cases hx : os.xdg_data_home with
  | none => simp [JGManager.set_paths, specBasePath, hx]
  | some v =>
    rw [hx] at h
    have hv : v ≠ "" := fun he => h (by rw [he])
    simp [JGManager.set_paths, specBasePath, hx, hv]

/-- Claim C3, witness: the amended statement evaluated with
`XDG_DATA_HOME=/d`, where the resolved base path is `/d/nestopia`. -/
theorem claim_C3_witness :
    (m0.set_paths osXdg).basepath = specBasePath osXdg.xdg_data_home osXdg.home ∧
    (m0.set_paths osXdg).basepath = "/d/nestopia" :=
  ⟨claim_C3 osXdg m0 (by decide), by decide⟩

/-- Claim C3, counterexample: with `XDG_DATA_HOME` set to the empty string
the code resolves the base path to `/nestopia`, not to the claimed
`$HOME/.local/share/nestopia` (the source only checks `getenv` for null,
not for emptiness). -/
theorem claim_C3_counterexample :
    osEmptyXdg.xdg_data_home = some "" ∧
    (m0.set_paths osEmptyXdg).basepath = "/nestopia" ∧
    (m0.set_paths osEmptyXdg).basepath ≠ osEmptyXdg.home ++ "/.local/share/nestopia" := by
  decide

/-- Claim C4: when a game is loaded, the path handed to the core by
`state_qload(slot)` (via `jg_state_load`) and by `state_qsave(slot)` (via
`jg_state_save`) equals `base ++ "/state/" ++ gamename ++ "_" ++
decimal(slot) ++ ".nst"`, with `decimal` the plain decimal rendering of
the integer. -/
theorem claim_C4 (env : CoreEnv) (m : JGManager) (slot : Int) (h : m.is_loaded = true) :
    ((m.state_qload env slot).2).head? = some (Event.core (CoreCall.jgStateLoad
      (m.basepath ++ "/state/" ++ m.gamename ++ "_" ++ to_string_int slot ++ ".nst"))) ∧
    ((m.state_qsave env slot).2).head? = some (Event.core (CoreCall.jgStateSave
      (m.basepath ++ "/state/" ++ m.gamename ++ "_" ++ to_string_int slot ++ ".nst"))) := by
  have hl : m.loaded = true := h
  constructor <;>
    simp [JGManager.state_qload, JGManager.state_qsave, JGManager.state_load,
      JGManager.state_save, hl]

/-- Claim C4, witness: on the loaded manager `m1` (base `/d/nestopia`, game
name `Alpha`) with slot 3, the quick-slot path is
`/d/nestopia/state/Alpha_3.nst`, matching scenario 4 of the
specification. -/
theorem claim_C4_witness :
    ((m1.state_qload envOK 3).2).head? = some (Event.core (CoreCall.jgStateLoad
      (m1.basepath ++ "/state/" ++ m1.gamename ++ "_" ++ to_string_int 3 ++ ".nst"))) ∧
    ((m1.state_qsave envOK 3).2).head? = some (Event.core (CoreCall.jgStateSave
      (m1.basepath ++ "/state/" ++ m1.gamename ++ "_" ++ to_string_int 3 ++ ".nst"))) ∧
    m1.basepath ++ "/state/" ++ m1.gamename ++ "_" ++ to_string_int 3 ++ ".nst" =
      "/d/nestopia/state/Alpha_3.nst" :=
  ⟨(claim_C4 envOK m1 3 rfl).1, (claim_C4 envOK m1 3 rfl).2, by decide⟩

/-- Claim C5, amended: for every interval `x` with `x ≥ -1/2` (hence for
every non-negative frame interval) invoking the frametime callback stores
`⌊x + 1/2⌋`; for smaller (negative) intervals the C++ double-to-int
assignment truncates toward zero instead of flooring, so the claimed
floor formula does not hold there. -/
theorem claim_C5 (s : FrameState) (x : ℚ) (h : -(1/2) ≤ x) :
    get_frametime (jg_frametime s x) = ⌊x + 1/2⌋ := by
  have h0 : (0 : ℚ) ≤ x + 1/2 := by linarith
  show truncToInt (x + 1/2) = ⌊x + 1/2⌋
  rw [truncToInt, if_pos h0]

/-- Claim C5, witness: invoking the callback with 16.8 stores 17, the value
demanded by scenario 5 of the specification. -/
theorem claim_C5_witness :
    get_frametime (jg_frametime fs0 (84/5)) = ⌊(84/5 : ℚ) + 1/2⌋ ∧
    (⌊(84/5 : ℚ) + 1/2⌋ : Int) = 17 :=
  ⟨claim_C5 fs0 (84/5) (by norm_num), by norm_num⟩

/-- Claim C5, counterexample: invoking the callback with `x = -1` stores 0
(truncation toward zero of `-1/2`), while `⌊x + 1/2⌋ = -1`, refuting the
claim for negative intervals. -/
theorem claim_C5_counterexample :
    get_frametime (jg_frametime fs0 (-1)) = 0 ∧ (⌊(-1 : ℚ) + 1/2⌋ : Int) = -1 ∧
    get_frametime (jg_frametime fs0 (-1)) ≠ ⌊(-1 : ℚ) + 1/2⌋ := by
  have h1 : get_frametime (jg_frametime fs0 (-1)) = 0 := by
    norm_num [get_frametime, jg_frametime, truncToInt]
  have h2 : (⌊(-1 : ℚ) + 1/2⌋ : Int) = -1 := by norm_num
  exact ⟨h1, h2, by rw [h1, h2]; decide⟩

/-- Helper: a descriptor returned by the linear scan is a recorded
descriptor and its name equals the query. -/
theorem findSetting_eq_some (l : List jg_setting_t) (n : String) (d : jg_setting_t)
    (h : findSetting l n = some d) : d ∈ l ∧ d.name = n := by
  induction l with
  | nil => simp [findSetting] at h
  | cons s rest ih =>
    by_cases hs : s.name = n
    · rw [findSetting, if_pos hs] at h
      injection h with h2
      subst h2
      exact ⟨List.mem_cons_self s rest, hs⟩
    · rw [findSetting, if_neg hs] at h
      obtain ⟨hm, hn⟩ := ih h
      exact ⟨List.mem_cons_of_mem s hm, hn⟩

/-- Helper: when the linear scan returns the null sentinel, no recorded
descriptor has the queried name. -/
theorem findSetting_eq_none (l : List jg_setting_t) (n : String)
    (h : findSetting l n = none) : ∀ d ∈ l, d.name ≠ n := by
  induction l with
  | nil => intro d hd; simp at hd
  | cons s rest ih =>
    intro d hd
    by_cases hs : s.name = n
    · rw [findSetting, if_pos hs] at h
      exact absurd h (by simp)
    · rw [findSetting, if_neg hs] at h
      rcases List.mem_cons.mp hd with rfl | hd2
      · exact hs
      · exact ih h d hd2

/-- Claim C6: `get_setting n` returns a recorded descriptor whose name
equals `n` (exact, case-sensitive string equality) whenever one exists,
returns the null sentinel when none exists, and never returns a
descriptor whose name differs from `n`. -/
theorem claim_C6 (m : JGManager) (n : String) :
    (∀ d, m.get_setting n = some d → d ∈ m.settings ∧ d.name = n) ∧
    ((∃ d ∈ m.settings, d.name = n) →
      ∃ d, m.get_setting n = some d ∧ d ∈ m.settings ∧ d.name = n) ∧
    ((∀ d ∈ m.settings, d.name ≠ n) → m.get_setting n = none) := by
  refine ⟨?_, ?_, ?_⟩
  · intro d hd
    exact findSetting_eq_some m.settings n d hd
  · intro hex
    cases hf : m.get_setting n with
    | some d =>
      obtain ⟨hm, hn⟩ := findSetting_eq_some m.settings n d hf
      exact ⟨d, rfl, hm, hn⟩
    | none =>
      obtain ⟨d, hd, hn⟩ := hex
      exact absurd hn (findSetting_eq_none m.settings n hf d hd)
  · intro hall
    cases hf : m.get_setting n with
    | none => rfl
    | some d =>
      obtain ⟨hm, hn⟩ := findSetting_eq_some m.settings n d hf
      exact absurd hn (hall d hm)

/-- Claim C6, witness: on the settings list of scenario 6, looking up
name `b` returns the recorded descriptor named `b`. -/
theorem claim_C6_witness :
    (⟨"b", 1⟩ : jg_setting_t) ∈ m2.settings ∧ (⟨"b", 1⟩ : jg_setting_t).name = "b" :=
  (claim_C6 m2 "b").1 ⟨"b", 1⟩ (by decide)

/-- Helper: the status-to-message mapping is the same whether the cases
are tried in source order (0, then 1, then default) or in claim order
(1, then 0, then other). -/
theorem qmsg_comm (R : Int) (F S U : String) :
    (if R = 0 then F else if R = 1 then S else U) =
    (if R = 1 then S else if R = 0 then F else U) := by
  by_cases h0 : R = 0
  · subst h0; simp
  · simp [h0]

/-- Claim C7: when a game is loaded, `state_qsave` emits exactly one
screen-severity log message, namely `State Saved` for status 1,
`State Save Failed` for status 0, and `State Save Unknown` for any other
status; `state_qload` likewise emits `State Loaded`, `State Load Failed`
or `State Load Unknown`, with these exact strings. -/
theorem claim_C7 (env : CoreEnv) (m : JGManager) (slot : Int) (h : m.is_loaded = true) :
    ((m.state_qsave env slot).2).filter Event.isScrLog =
      [Event.logScr (if (m.state_qsave env slot).1 = 1 then "State Saved"
        else if (m.state_qsave env slot).1 = 0 then "State Save Failed"
        else "State Save Unknown")] ∧
    ((m.state_qload env slot).2).filter Event.isScrLog =
      [Event.logScr (if (m.state_qload env slot).1 = 1 then "State Loaded"
        else if (m.state_qload env slot).1 = 0 then "State Load Failed"
        else "State Load Unknown")] := by
  have hl : m.loaded = true := h
  constructor <;>
    simp [JGManager.state_qsave, JGManager.state_qload, JGManager.state_save,
      JGManager.state_load, hl, Event.isScrLog, qmsg_comm]

/-- Claim C7, witness: on the loaded manager `m1` with a core whose state
operations succeed (status 1), quick save logs `State Saved` and quick
load logs `State Loaded`. -/
theorem claim_C7_witness :
    ((m1.state_qsave envOK 3).2).filter Event.isScrLog = [Event.logScr "State Saved"] ∧
    ((m1.state_qload envOK 3).2).filter Event.isScrLog = [Event.logScr "State Loaded"] := by
  refine ⟨?_, ?_⟩
  · rw [(claim_C7 envOK m1 3 rfl).1]; decide
  · rw [(claim_C7 envOK m1 3 rfl).2]; decide

/-- Claim C8: calling `state_load` or `state_save` while no game is loaded
returns status 2 and makes no core-API call (empty event trace). -/
theorem claim_C8 (env : CoreEnv) (m : JGManager) (fn : String) (h : m.is_loaded = false) :
    m.state_load env fn = (2, []) ∧ m.state_save env fn = (2, []) := by
  have hl : m.loaded = false := h
  constructor <;> simp [JGManager.state_load, JGManager.state_save, hl]

/-- Claim C8, witness: scenario 1 of the specification evaluated on the
unloaded manager `m0`. -/
theorem claim_C8_witness :
    m0.state_load envOK "x.nst" = (2, []) ∧ m0.state_save envOK "x.nst" = (2, []) :=
  claim_C8 envOK m0 "x.nst" rfl

/-- Claim C9: in the destructor, `jg_deinit` is the first call emitted, so
it always precedes any `jg_game_unload` of the final unload sweep; the
deinit-before-unload ordering is never inverted. -/
theorem claim_C9 (m : JGManager) :
    ((m.destructor).2).head? = some (Event.core CoreCall.jgDeinit) ∧
    (Event.core CoreCall.jgGameUnload ∈ (m.destructor).2 →
      ((m.destructor).2).indexOf (Event.core CoreCall.jgDeinit) <
        ((m.destructor).2).indexOf (Event.core CoreCall.jgGameUnload)) := by
  cases hl : m.loaded
  · constructor
    · simp [JGManager.destructor, JGManager.unload_game, hl]
    · intro hmem
      simp [JGManager.destructor, JGManager.unload_game, hl] at hmem
  · constructor
    · simp [JGManager.destructor, JGManager.unload_game, hl]
    · intro hmem
      simp [JGManager.destructor, JGManager.unload_game, hl]
      decide

/-- Claim C9, witness: destroying the loaded manager `m1` emits `jg_deinit`
strictly before `jg_game_unload`. -/
theorem claim_C9_witness :
    ((m1.destructor).2).head? = some (Event.core CoreCall.jgDeinit) ∧
    ((m1.destructor).2).indexOf (Event.core CoreCall.jgDeinit) <
      ((m1.destructor).2).indexOf (Event.core CoreCall.jgGameUnload) :=
  ⟨(claim_C9 m1).1,
    (claim_C9 m1).2 (by simp [JGManager.destructor, JGManager.unload_game, m1, m0])⟩

/-- Claim C10: calling `state_qload` or `state_qsave` while no game is
loaded returns status 2 immediately, with no core-API call and no screen
log message (empty event trace). -/
theorem claim_C10 (env : CoreEnv) (m : JGManager) (slot : Int) (h : m.is_loaded = false) :
    m.state_qload env slot = (2, []) ∧ m.state_qsave env slot = (2, []) := by
  have hl : m.loaded = false := h
  constructor <;> simp [JGManager.state_qload, JGManager.state_qsave, hl]

/-- Claim C10, witness: quick save and quick load on the unloaded manager
`m0` with slot 7 both return 2 with an empty event trace. -/
theorem claim_C10_witness :
    m0.state_qload envOK 7 = (2, []) ∧ m0.state_qsave envOK 7 = (2, []) :=
  claim_C10 envOK m0 7 rfl
